import Mathlib

/-!
Shallow embedding of the Pentamind routing/execution/verification pipeline
(backend/agent/langgraph_flow.py and backend/jury/langgraph_flow.py, with the
pure parts of backend/agent/gemini_client.py and
backend/agent/perplexity_search.py), together with theorems settling the
frozen claims about the pipeline.

External effects (chat-completion calls, the search provider, environment
variables) are modelled as explicit environment records; every node is a
function from the LangGraph state (plus its environment) to the updated
state, returning `Option` so that a Python `AttributeError` on a missing
optional field is `none`.
-/

namespace Pentamind

/-! ## String helpers modelling the Python string operations used by the code -/

/-- Whether `pat` occurs as a contiguous sublist of `l`. -/
def listContainsSub (pat : List Char) : List Char → Bool
  | [] => pat.isPrefixOf []
  | c :: cs => pat.isPrefixOf (c :: cs) || listContainsSub pat cs

/-- Python `pat in s` (substring containment). -/
def strContains (s pat : String) : Bool :=
  listContainsSub pat.data s.data

/-- Python `s.startswith(pat)`. -/
def pyStartsWith (s pat : String) : Bool :=
  pat.data.isPrefixOf s.data

/-- Characters removed by Python `str.strip()` with no arguments (ASCII part). -/
def pyIsSpace (c : Char) : Bool :=
  c == ' ' || c == '\t' || c == '\n' || c == '\r' || c == Char.ofNat 11 || c == Char.ofNat 12

/-- Python `s.strip()` as a character list. -/
def pyStrip (s : String) : List Char :=
  ((s.data.dropWhile pyIsSpace).reverse.dropWhile pyIsSpace).reverse

/-- Python `s.strip()` as a string. -/
def pyStripStr (s : String) : String :=
  String.mk (pyStrip s)

/-- One step of Python `s.replace(pat, repl)` with fuel (pat assumed nonempty). -/
def replaceChars : Nat → List Char → List Char → List Char → List Char
  | 0, _, _, l => l
  | Nat.succ fuel, pat, repl, l =>
    if pat.isPrefixOf l then repl ++ replaceChars fuel pat repl (l.drop pat.length)
    else
      match l with
      | [] => []
      | c :: cs => c :: replaceChars fuel pat repl cs

/-- Python `s.replace(pat, repl)`. -/
def pyReplace (s pat repl : String) : String :=
  String.mk (replaceChars s.data.length pat.data repl.data s.data)

/-- Python `d.get(k, default)` for a string-to-string dict kept as an
association list in insertion order. -/
def dictGetD (d : List (String × String)) (k dflt : String) : String :=
  match d.find? (fun p => p.1 == k) with
  | some p => p.2
  | none => dflt

/-! ## Validity model of Python `json.loads`

`verify` only uses `json.loads(result)` for its success/failure, so we model
validity of a string under Python's strict JSON scanner (objects, arrays,
strings with escapes, numbers, `true`/`false`/`null`, and the Python
extensions `NaN`/`Infinity`/`-Infinity`). -/

/-- JSON whitespace accepted by the scanner. -/
def jsonWs (c : Char) : Bool :=
  c == ' ' || c == '\t' || c == '\n' || c == '\r'

/-- Skip leading JSON whitespace. -/
def skipJsonWs : List Char → List Char
  | [] => []
  | c :: cs => if jsonWs c then skipJsonWs cs else c :: cs

/-- Hexadecimal digit. -/
def isHexDigit (c : Char) : Bool :=
  c.isDigit || (97 ≤ c.toNat && c.toNat ≤ 102) || (65 ≤ c.toNat && c.toNat ≤ 70)

/-- Consume the rest of a JSON string after the opening quote; strict mode
rejects unescaped control characters. -/
def jsonStringRest : List Char → Option (List Char)
  | [] => none
  | c :: cs =>
    if c == '"' then some cs
    else if c == '\\' then
      match cs with
      | [] => none
      | e :: cs2 =>
        if e == 'u' then
          match cs2 with
          | a :: b :: c3 :: d :: cs3 =>
            if isHexDigit a && isHexDigit b && isHexDigit c3 && isHexDigit d then
              jsonStringRest cs3
            else none
          | _ => none
        else if e == '"' || e == '\\' || e == '/' || e == 'b' || e == 'f' ||
                e == 'n' || e == 'r' || e == 't' then
          jsonStringRest cs2
        else none
    else if c.toNat < 32 then none
    else jsonStringRest cs

/-- Optional exponent part of a JSON number. -/
def jsonExpPart : List Char → Option (List Char)
  | [] => some []
  | c :: cs =>
    if c == 'e' || c == 'E' then
      let cs2 :=
        match cs with
        | s :: cs3 => if s == '+' || s == '-' then cs3 else s :: cs3
        | [] => []
      let sp := cs2.span (fun ch => ch.isDigit)
      if sp.1.isEmpty then none else some sp.2
    else some (c :: cs)

/-- Optional fraction part (followed by optional exponent) of a JSON number. -/
def jsonFracPart : List Char → Option (List Char)
  | [] => some []
  | c :: cs =>
    if c == '.' then
      let sp := cs.span (fun ch => ch.isDigit)
      if sp.1.isEmpty then none else jsonExpPart sp.2
    else jsonExpPart (c :: cs)

/-- JSON number after an optional leading minus sign:
`(0|[1-9][0-9]*)(.[0-9]+)?([eE][+-]?[0-9]+)?`. -/
def jsonNumberRest : List Char → Option (List Char)
  | [] => none
  | c :: cs =>
    if c == '0' then jsonFracPart cs
    else if c.isDigit then jsonFracPart (cs.dropWhile (fun ch => ch.isDigit))
    else none

/-- Expect a literal character sequence. -/
def expectLit (lit l : List Char) : Option (List Char) :=
  if lit.isPrefixOf l then some (l.drop lit.length) else none

mutual

/-- Consume one JSON value (with leading whitespace); fuel bounds nesting. -/
def jsonValueFuel : Nat → List Char → Option (List Char)
  | 0, _ => none
  | Nat.succ fuel, l =>
    match skipJsonWs l with
    | [] => none
    | c :: cs =>
      if c == '"' then jsonStringRest cs
      else if c == Char.ofNat 123 then jsonObjMembers fuel (skipJsonWs cs) true
      else if c == '[' then jsonArrElems fuel (skipJsonWs cs) true
      else if c == '-' then
        if ('I' :: 'n' :: 'f' :: 'i' :: 'n' :: 'i' :: 't' :: 'y' :: []).isPrefixOf cs then
          some (cs.drop 8)
        else jsonNumberRest cs
      else if c == 't' then expectLit ('r' :: 'u' :: 'e' :: []) cs
      else if c == 'f' then expectLit ('a' :: 'l' :: 's' :: 'e' :: []) cs
      else if c == 'n' then expectLit ('u' :: 'l' :: 'l' :: []) cs
      else if c == 'N' then expectLit ('a' :: 'N' :: []) cs
      else if c == 'I' then expectLit ('n' :: 'f' :: 'i' :: 'n' :: 'i' :: 't' :: 'y' :: []) cs
      else if c.isDigit then jsonNumberRest (c :: cs)
      else none

/-- Consume object members after the opening brace (whitespace skipped);
`first` is true at the first member position, where the closing brace is
allowed. -/
def jsonObjMembers : Nat → List Char → Bool → Option (List Char)
  | 0, _, _ => none
  | Nat.succ fuel, l, first =>
    match l with
    | [] => none
    | c :: cs =>
      if c == Char.ofNat 125 && first then some cs
      else if c == '"' then
        match jsonStringRest cs with
        | none => none
        | some rest =>
          match skipJsonWs rest with
          | ':' :: rest2 =>
            match jsonValueFuel fuel rest2 with
            | none => none
            | some rest3 =>
              match skipJsonWs rest3 with
              | ',' :: rest4 => jsonObjMembers fuel (skipJsonWs rest4) false
              | d :: rest4 => if d == Char.ofNat 125 then some rest4 else none
              | [] => none
          | _ => none
      else none

/-- Consume array elements after the opening bracket (whitespace skipped). -/
def jsonArrElems : Nat → List Char → Bool → Option (List Char)
  | 0, _, _ => none
  | Nat.succ fuel, l, first =>
    match l with
    | [] => none
    | c :: cs =>
      if c == ']' && first then some cs
      else
        match jsonValueFuel fuel (c :: cs) with
        | none => none
        | some rest =>
          match skipJsonWs rest with
          | ',' :: rest2 => jsonArrElems fuel (skipJsonWs rest2) false
          | ']' :: rest2 => some rest2
          | _ => none

end

/-- Success of Python `json.loads(s)`: one JSON value surrounded by
whitespace and nothing else. -/
def jsonValid (s : String) : Bool :=
  match jsonValueFuel (s.data.length + 1) s.data with
  | some rest => (skipJsonWs rest).isEmpty
  | none => false

/-! ## Data model (backend/agent/types.py) -/

/-- `TaskSpec.intent` literal. -/
inductive Intent where
  | code
  | reasoning
  | general
deriving DecidableEq, Repr

/-- `TaskSpec.format` literal. -/
inductive Format where
  | text
  | diff
  | json
deriving DecidableEq, Repr

/-- The string value of an `Intent` literal. -/
def intentStr : Intent → String
  | Intent.code => "code"
  | Intent.reasoning => "reasoning"
  | Intent.general => "general"

/-- The string value of a `Format` literal. -/
def formatStr : Format → String
  | Format.text => "text"
  | Format.diff => "diff"
  | Format.json => "json"

/-- The Python float literal 0.0 as an exact rational (kernel-reducible form). -/
def ratZero : ℚ := ⟨0, 1, by decide, by decide⟩

/-- The Python float literal 0.3 as an exact rational. -/
def ratPointThree : ℚ := ⟨3, 10, by decide, by decide⟩

/-- The Python float literal 0.5 as an exact rational. -/
def ratHalf : ℚ := ⟨1, 2, by decide, by decide⟩

/-- The Python float literal 0.8 as an exact rational. -/
def ratPointEight : ℚ := ⟨4, 5, by decide, by decide⟩

/-- The Python float literal 0.9 as an exact rational. -/
def ratPointNine : ℚ := ⟨9, 10, by decide, by decide⟩

/-- `TaskSpec`: task classification result. -/
structure TaskSpec where
  intent : Intent
  format : Format
  needs_citations : Bool
  confidence : ℚ
deriving DecidableEq, Repr

/-- `ScoreboardEntry`: model performance entry (pydantic defaults
`quality = 0`, `latency_ms = 0`, `cost_tier = "med"`, `notes = ""`). -/
structure ScoreboardEntry where
  model : String
  quality : ℚ
  latency_ms : Nat
  cost_tier : String
  notes : String
deriving DecidableEq, Repr

/-- Scalar values appearing in a trace payload dict. -/
inductive PyLeaf where
  | s : String → PyLeaf
  | n : Nat → PyLeaf
  | q : ℚ → PyLeaf
  | b : Bool → PyLeaf
  | strList : List String → PyLeaf
deriving DecidableEq, Repr

/-- Values of a trace payload dict: a scalar or a nested flat dict. -/
inductive PyVal where
  | leaf : PyLeaf → PyVal
  | dict : List (String × PyLeaf) → PyVal
deriving DecidableEq, Repr

/-- A trace payload (`TraceStep.data`, a Python dict) in insertion order. -/
abbrev TraceData := List (String × PyVal)

/-- Whether a trace payload has a given key. -/
def dataHasKey (d : TraceData) (k : String) : Bool :=
  d.any (fun p => p.1 == k)

/-- `TraceStep`: single step in the execution trace. -/
structure TraceStep where
  step : String
  model : Option String
  latency_ms : Nat
  data : TraceData
deriving DecidableEq, Repr

/-- `Message`: chat message. -/
structure Message where
  role : String
  content : String
deriving DecidableEq, Repr

/-- Outcome of a successful chat-completion call; the `usage` and `model`
fields of `ModelCallResult` are never read by the pipeline and are omitted. -/
structure ModelCallResult where
  content : String
  latency_ms : Nat
deriving DecidableEq, Repr

/-- `GraphState`: the LangGraph state object shared by the stages. -/
structure GraphState where
  task : String
  input : String
  mode : String
  task_spec : Option TaskSpec
  chosen_model : Option String
  result : Option String
  verification_passed : Bool
  fallback_attempted : Bool
  scoreboard : List ScoreboardEntry
  trace : List TraceStep
deriving DecidableEq, Repr

/-- The state built at the start of `run_jury_workflow`. -/
def initialState (task input mode : String) : GraphState :=
  { task := task, input := input, mode := mode, task_spec := none,
    chosen_model := none, result := none, verification_passed := false,
    fallback_attempted := false, scoreboard := [], trace := [] }

/-- Python truthiness test `not result` on an `Optional[str]`. -/
def isFalsy : Option String → Bool
  | none => true
  | some s => s == ""

/-! ## Pure parts of the provider modules -/

/-- `get_appropriate_gemini_model` (backend/agent/gemini_client.py): select a
Gemini model tier from the input length in characters. -/
def get_appropriate_gemini_model (input_length : Nat) : String :=
  let estimated_tokens := input_length / 4
  if estimated_tokens > 100000 then "gemini-2.5-pro"
  else if estimated_tokens > 10000 then "gemini-2.5-pro"
  else "gemini-2.5-flash"

/-- One entry of the `results` list returned by `search_with_perplexity`. -/
structure SearchResult where
  title : String
  url : String
  snippet : String
deriving DecidableEq, Repr

/-- The dict returned by `search_with_perplexity`; `source` and `count` are
derived fields never read by the pipeline. -/
structure SearchData where
  success : Bool
  query : String
  results : List SearchResult
deriving DecidableEq, Repr

/-- `format_search_results_for_llm` (backend/agent/perplexity_search.py). -/
def format_search_results_for_llm (sd : SearchData) : String :=
  if !sd.success then "No search results available."
  else if sd.results.isEmpty then "No search results found."
  else
    let header := ["Search Results for: " ++ sd.query,
                   "Found " ++ toString sd.results.length ++ " relevant sources:",
                   ""]
    let body := (List.enumFrom 1 sd.results).flatMap (fun p =>
      [toString p.1 ++ ". " ++ p.2.title, "   URL: " ++ p.2.url] ++
      (if p.2.snippet != "" then ["   " ++ p.2.snippet] else []) ++ [""])
    String.intercalate "\n" (header ++ body)

/-- The `search_sources` list built in `execute`:
one line per result in the form described by the f-string at line 283. -/
def formatSources (rs : List SearchResult) : List String :=
  (List.enumFrom 1 rs).map (fun p =>
    "[" ++ toString p.1 ++ "] " ++ p.2.title ++ " - " ++ p.2.url)

namespace Agent

/-! ## Agent flow (backend/agent/langgraph_flow.py) -/

/-- `ROUTER_MODEL`: fast and cheap model used for classification only. -/
def ROUTER_MODEL : String := "llama3-8b-instruct"

/-- `TASK_MODELS`: task-specific model table, one model per task type. -/
def TASK_MODELS : List (String × String) :=
  [("summarize", "gemini"),
   ("research", "perplexity"),
   ("solve", "deepseek-r1-distill-llama-70b"),
   ("code", "anthropic-claude-sonnet-4"),
   ("rewrite", "mistral-small-3.1-24b-instruct")]

/-- `FALLBACK_MODEL`: the designated reliable fallback backend. -/
def FALLBACK_MODEL : String := "llama3.3-70b-instruct"

/-- `LONG_CONTEXT_THRESHOLD` (characters). -/
def LONG_CONTEXT_THRESHOLD : Nat := 10000

/-- `END`: the LangGraph terminal-node constant. -/
def ENDNODE : String := "__end__"

/-- `TaskSpec.dict()` as a flat payload dict. -/
def taskSpecDict (ts : TaskSpec) : List (String × PyLeaf) :=
  [("intent", PyLeaf.s (intentStr ts.intent)),
   ("format", PyLeaf.s (formatStr ts.format)),
   ("needs_citations", PyLeaf.b ts.needs_citations),
   ("confidence", PyLeaf.q ts.confidence)]

/-- `TaskSpec.dict()` as a top-level trace payload. -/
def taskSpecData (ts : TaskSpec) : TraceData :=
  (taskSpecDict ts).map (fun p => (p.1, PyVal.leaf p.2))

/-- Environment of `classify_task`: the outcome of the single
`call_do_chat_completion` on the router model, and the combined
`json.loads` + pydantic `TaskSpec(**data)` parse of its content
(`none` when parsing or schema validation raises). -/
structure ClassifyEnv where
  routerCall : Except String ModelCallResult
  parseTaskSpec : String → Option TaskSpec

/-- `classify_task` node. -/
def classify_task (env : ClassifyEnv) (state : GraphState) : GraphState :=
  match env.routerCall with
  | Except.ok result =>
    let task_spec :=
      match env.parseTaskSpec (pyStripStr result.content) with
      | some ts => ts
      | none =>
        { intent := Intent.general, format := Format.text,
          needs_citations := false, confidence := ratHalf }
    let trace_step : TraceStep :=
      { step := "classify_task", model := some ROUTER_MODEL,
        latency_ms := result.latency_ms, data := taskSpecData task_spec }
    { state with task_spec := some task_spec, trace := state.trace ++ [trace_step] }
  | Except.error e =>
    let task_spec : TaskSpec :=
      { intent := Intent.general, format := Format.text,
        needs_citations := false, confidence := ratPointThree }
    let trace_step : TraceStep :=
      { step := "classify_task", model := some ROUTER_MODEL, latency_ms := 0,
        data := [("error", PyVal.leaf (PyLeaf.s e)),
                 ("fallback", PyVal.dict (taskSpecDict task_spec))] }
    { state with task_spec := some task_spec, trace := state.trace ++ [trace_step] }

/-- Environment of `choose_model`: whether `is_gemini_available()` holds
(the GEMINI_API_KEY environment variable is set). -/
structure ChooseEnv where
  geminiAvailable : Bool

/-- `choose_model` node. The initial `TASK_MODELS.get(task, FALLBACK_MODEL)`
assignment of the source is overwritten on every branch of the if/elif
chain, so only the branch results appear here. -/
def choose_model (env : ChooseEnv) (state : GraphState) : Option GraphState :=
  match state.task_spec with
  | none => none
  | some task_spec =>
    let task := state.task
    let input_length := state.input.length
    let chosen :=
      if task == "summarize" then
        if env.geminiAvailable then "gemini:" ++ get_appropriate_gemini_model input_length
        else FALLBACK_MODEL
      else if task == "research" then "perplexity"
      else if task == "solve" then dictGetD TASK_MODELS "solve" FALLBACK_MODEL
      else if task == "code" then dictGetD TASK_MODELS "code" FALLBACK_MODEL
      else if task == "rewrite" then dictGetD TASK_MODELS "rewrite" FALLBACK_MODEL
      else FALLBACK_MODEL
    let scoreboard : List ScoreboardEntry :=
      [{ model := "Gemini 1.5 Pro", quality := ratZero, latency_ms := 0, cost_tier := "low",
         notes := if task == "summarize" then "✓ Summarize" else "Summarization" },
       { model := "Perplexity", quality := ratZero, latency_ms := 0, cost_tier := "low",
         notes := if task == "research" then "✓ Research" else "Web search + citations" },
       { model := "DeepSeek R1", quality := ratZero, latency_ms := 0, cost_tier := "med",
         notes := if task == "solve" then "✓ Solve" else "Reasoning & math" },
       { model := "Claude Sonnet 4", quality := ratZero, latency_ms := 0, cost_tier := "high",
         notes := if task == "code" then "✓ Code" else "Code generation" },
       { model := "Mistral Small", quality := ratZero, latency_ms := 0, cost_tier := "med",
         notes := if task == "rewrite" then "✓ Rewrite" else "Text editing" }]
    let trace_data : TraceData :=
      [("winner", PyVal.leaf (PyLeaf.s chosen)),
       ("task", PyVal.leaf (PyLeaf.s task)),
       ("intent", PyVal.leaf (PyLeaf.s (intentStr task_spec.intent))),
       ("input_length", PyVal.leaf (PyLeaf.n input_length)),
       ("model_mapping", PyVal.dict (TASK_MODELS.map (fun p => (p.1, PyLeaf.s p.2))))]
    let trace_step : TraceStep :=
      { step := "choose_model", model := none, latency_ms := 0, data := trace_data }
    some { state with chosen_model := some chosen, scoreboard := scoreboard,
                      trace := state.trace ++ [trace_step] }

/-- `TASK_PROMPTS` local dict of `execute`. -/
def TASK_PROMPTS : List (String × String) :=
  [("summarize", "You are an expert summarizer. Create clear, concise summaries that capture the key points. Organize the summary with clear structure."),
   ("research", "You are a research assistant with access to current web information. Provide comprehensive, well-cited answers based on the search results provided."),
   ("solve", "You are a reasoning expert. Think step-by-step, show your work, and provide detailed analysis. Break down complex problems into manageable parts."),
   ("code", "You are an expert software engineer. Write clean, efficient, well-documented code. Follow best practices and explain your implementation."),
   ("rewrite", "You are a skilled editor. Improve the text while preserving the original meaning. Enhance clarity, flow, and style.")]

/-- `MODEL_NAMES` local dict of `execute`: friendly display names. -/
def MODEL_NAMES : List (String × String) :=
  [("anthropic-claude-sonnet-4", "Claude Sonnet 4"),
   ("deepseek-r1-distill-llama-70b", "DeepSeek R1"),
   ("mistral-small-3.1-24b-instruct", "Mistral Small"),
   ("llama3.3-70b-instruct", "Llama 3.3 70B")]

/-- Environment of `execute`: whether `get_perplexity_key()` is set, the
outcome of `search_with_perplexity(state.input, max_results=5)` when it is
called, the `call_do_chat_completion` oracle (model and composed messages to
outcome), and the `call_gemini` oracle (messages and model to outcome). -/
structure ExecEnv where
  perplexityKey : Bool
  search : Except String SearchData
  call : String → List Message → Except String ModelCallResult
  gemini : List Message → String → Except String ModelCallResult

/-- Result of the search/reroute phase of `execute` (lines 260-301). -/
structure SearchPhase where
  model : String
  promptAdd : String
  sources : List String
  perplexity_used : Bool
deriving Repr

/-- Search/reroute phase of `execute`: for a research task (or chosen backend
`perplexity`) with a configured key and a successful search, append the
search context to the system prompt and reroute to the reasoning model;
on a failed search or a missing key substitute `FALLBACK_MODEL`. -/
def execSearchPhase (env : ExecEnv) (task model0 : String) : SearchPhase :=
  if task == "research" || model0 == "perplexity" then
    if env.perplexityKey then
      match env.search with
      | Except.ok sd =>
        { model := dictGetD TASK_MODELS "solve" FALLBACK_MODEL,
          promptAdd := "\n\nWeb Search Results:\n" ++ format_search_results_for_llm sd ++
            "\n\nUse these sources to provide accurate, cited information. Reference sources using [1], [2], etc.",
          sources := formatSources sd.results,
          perplexity_used := true }
      | Except.error _ =>
        { model := FALLBACK_MODEL, promptAdd := "", sources := [], perplexity_used := false }
    else
      { model := FALLBACK_MODEL, promptAdd := "", sources := [], perplexity_used := false }
  else
    { model := model0, promptAdd := "", sources := [], perplexity_used := false }

/-- Format-specific suffix appended to the system prompt (lines 303-307). -/
def formatSuffix : Format → String
  | Format.diff => "\n\nProvide output as a unified diff format starting with --- and +++."
  | Format.json => "\n\nProvide output as valid JSON."
  | Format.text => ""

/-- The composed messages of `execute` (lines 309-314). -/
def execMessages (env : ExecEnv) (task input model0 : String) (spec : TaskSpec) :
    List Message :=
  let system_prompt := dictGetD TASK_PROMPTS task "You are a helpful assistant." ++
    (execSearchPhase env task model0).promptAdd ++ formatSuffix spec.format
  [{ role := "system", content := system_prompt },
   { role := "user", content := input }]

/-- Dispatch of `execute` (lines 316-354): Gemini-prefixed models go to
`call_gemini`, everything else to `call_do_chat_completion`. -/
def execDispatch (env : ExecEnv) (model : String) (messages : List Message) :
    Except String ModelCallResult :=
  if pyStartsWith model "gemini:" then
    env.gemini messages (pyReplace model "gemini:" "")
  else env.call model messages

/-- The display name for the executing model (lines 336-363). -/
def execDisplay (model : String) : String :=
  if pyStartsWith model "gemini:" then "Gemini " ++ pyReplace model "gemini:" ""
  else dictGetD MODEL_NAMES model model

/-- The scoreboard annotation loop of `execute` (lines 369-387). -/
def annotate (task : String) (lat : Nat) (e : ScoreboardEntry) : ScoreboardEntry :=
  if task == "summarize" && strContains e.model "Gemini" then
    { e with latency_ms := lat, quality := ratPointNine }
  else if task == "research" && strContains e.model "Perplexity" then
    { e with latency_ms := lat, quality := ratPointNine }
  else if task == "solve" && strContains e.model "DeepSeek" then
    { e with latency_ms := lat, quality := ratPointNine }
  else if task == "code" && strContains e.model "Claude" then
    { e with latency_ms := lat, quality := ratPointNine }
  else if task == "rewrite" && strContains e.model "Mistral" then
    { e with latency_ms := lat, quality := ratPointNine }
  else e

/-- `execute` node. -/
def execute (env : ExecEnv) (state : GraphState) : Option GraphState :=
  match state.chosen_model, state.task_spec with
  | some model0, some task_spec =>
    let task := state.task
    let ph := execSearchPhase env task model0
    let messages := execMessages env task state.input model0 task_spec
    match execDispatch env ph.model messages with
    | Except.ok result =>
      let display_model :=
        if ph.perplexity_used then "Perplexity + " ++ execDisplay ph.model
        else execDisplay ph.model
      let updated_scoreboard := state.scoreboard.map (annotate task result.latency_ms)
      let trace_data : TraceData :=
        [("task", PyVal.leaf (PyLeaf.s task))] ++
        (if ph.perplexity_used then
          [("perplexity_used", PyVal.leaf (PyLeaf.b true)),
           ("sources_found", PyVal.leaf (PyLeaf.n ph.sources.length)),
           ("sources", PyVal.leaf (PyLeaf.strList ph.sources))]
         else [])
      let trace_step : TraceStep :=
        { step := "execute", model := some display_model,
          latency_ms := result.latency_ms, data := trace_data }
      let final_result := result.content ++
        (if ph.perplexity_used && !ph.sources.isEmpty then
          "\n\n---\n**Sources:**\n" ++ String.intercalate "\n" ph.sources
         else "")
      some { state with result := some final_result,
                        chosen_model := some display_model,
                        scoreboard := updated_scoreboard,
                        trace := state.trace ++ [trace_step] }
    | Except.error e =>
      match env.call FALLBACK_MODEL messages with
      | Except.ok result =>
        let trace_step : TraceStep :=
          { step := "execute", model := some (ph.model ++ " → Llama 3.3 (fallback)"),
            latency_ms := result.latency_ms,
            data := [("original_error", PyVal.leaf (PyLeaf.s e)),
                     ("used_fallback", PyVal.leaf (PyLeaf.b true))] }
        some { state with result := some result.content,
                          chosen_model := some "Llama 3.3 70B (fallback)",
                          trace := state.trace ++ [trace_step] }
      | Except.error fallback_error =>
        let trace_step : TraceStep :=
          { step := "execute", model := some ph.model, latency_ms := 0,
            data := [("error", PyVal.leaf (PyLeaf.s e)),
                     ("fallback_error", PyVal.leaf (PyLeaf.s fallback_error))] }
        some { state with result := none, trace := state.trace ++ [trace_step] }
  | _, _ => none

/-- `verify` node. -/
def verify (state : GraphState) : Option GraphState :=
  if isFalsy state.result then
    some { state with verification_passed := false }
  else
    match state.result, state.task_spec with
    | some result, some task_spec =>
      let pn : Bool × List String :=
        match task_spec.format with
        | Format.json =>
          if jsonValid result then (true, ["Valid JSON"]) else (false, ["Invalid JSON"])
        | Format.diff =>
          if !(strContains result "+++" && strContains result "---") then
            if !(pyStartsWith result "diff") then (false, ["Not a valid diff format"])
            else (true, ["Diff format detected"])
          else (true, ["Diff format valid"])
        | Format.text =>
          if (pyStrip result).length > 0 then (true, ["Non-empty response"])
          else (false, ["Empty response"])
      let trace_step : TraceStep :=
        { step := "verify", model := none, latency_ms := 0,
          data := [("passed", PyVal.leaf (PyLeaf.b pn.1)),
                   ("notes", PyVal.leaf (PyLeaf.strList pn.2))] }
      some { state with verification_passed := pn.1,
                        trace := state.trace ++ [trace_step] }
    | _, _ => none

/-- Environment of `fallback`: the `call_do_chat_completion` oracle. -/
structure FallbackEnv where
  call : String → List Message → Except String ModelCallResult

/-- The simplified format-aware messages composed by `fallback`
(lines 519-530). -/
def fallbackMessages (task input : String) (spec : TaskSpec) : List Message :=
  let system_prompt := "You are a helpful assistant. Provide accurate responses." ++
    (match spec.format with
     | Format.json => "\n\nProvide output as valid JSON."
     | Format.diff => "\n\nProvide output as a unified diff format."
     | Format.text => "")
  [{ role := "system", content := system_prompt },
   { role := "user", content := "Task: " ++ task ++ "\n\n" ++ input }]

/-- `fallback` node. -/
def fallback (env : FallbackEnv) (state : GraphState) : Option GraphState :=
  match state.task_spec with
  | none => none
  | some task_spec =>
    let messages := fallbackMessages state.task state.input task_spec
    match env.call FALLBACK_MODEL messages with
    | Except.ok result =>
      let updated_scoreboard := state.scoreboard.map (fun e =>
        if e.model == FALLBACK_MODEL then
          { e with latency_ms := result.latency_ms, quality := ratPointEight,
                   notes := "Used as fallback" }
        else e)
      let trace_step : TraceStep :=
        { step := "fallback", model := some FALLBACK_MODEL,
          latency_ms := result.latency_ms, data := [] }
      some { state with result := some result.content,
                        chosen_model := some FALLBACK_MODEL,
                        fallback_attempted := true,
                        verification_passed := true,
                        scoreboard := updated_scoreboard,
                        trace := state.trace ++ [trace_step] }
    | Except.error e =>
      let trace_step : TraceStep :=
        { step := "fallback", model := some FALLBACK_MODEL, latency_ms := 0,
          data := [("error", PyVal.leaf (PyLeaf.s e))] }
      some { state with fallback_attempted := true,
                        verification_passed := true,
                        trace := state.trace ++ [trace_step] }

/-- `should_fallback` conditional edge. -/
def should_fallback (state : GraphState) : String :=
  if !state.verification_passed && !state.fallback_attempted then "fallback"
  else ENDNODE

/-- Environments of all stages, for a whole run. -/
structure PipelineEnv where
  classifyEnv : ClassifyEnv
  chooseEnv : ChooseEnv
  execEnv : ExecEnv
  fallbackEnv : FallbackEnv

/-- `run_jury_workflow`: compose the compiled graph
classify_task → choose_model → execute → verify → (fallback | end). -/
def run_jury_workflow (env : PipelineEnv) (task input mode : String) :
    Option GraphState :=
  let s1 := classify_task env.classifyEnv (initialState task input mode)
  (choose_model env.chooseEnv s1).bind (fun s2 =>
    (execute env.execEnv s2).bind (fun s3 =>
      (verify s3).bind (fun s4 =>
        if should_fallback s4 == "fallback" then fallback env.fallbackEnv s4
        else some s4)))

end Agent

namespace Jury

/-! ## Jury flow Verifier (backend/jury/langgraph_flow.py, lines 248-298)

The jury package's own `types` module is not under src/; per the spec (§3)
both flow variants share one RunState data model, so the jury `verify` is
stated over the same `GraphState`. -/

/-- `verify` node of the jury flow. -/
def verify (state : GraphState) : Option GraphState :=
  if isFalsy state.result then
    some { state with verification_passed := false }
  else
    match state.result, state.task_spec with
    | some result, some task_spec =>
      let pn : Bool × List String :=
        match task_spec.format with
        | Format.json =>
          if jsonValid result then (true, ["Valid JSON"]) else (false, ["Invalid JSON"])
        | Format.diff =>
          if !(strContains result "+++" && strContains result "---") then
            if !(pyStartsWith result "diff") then (false, ["Not a valid diff format"])
            else (true, ["Diff format detected"])
          else (true, ["Diff format valid"])
        | Format.text =>
          if (pyStrip result).length > 0 then (true, ["Non-empty response"])
          else (false, ["Empty response"])
      let trace_step : TraceStep :=
        { step := "verify", model := none, latency_ms := 0,
          data := [("passed", PyVal.leaf (PyLeaf.b pn.1)),
                   ("notes", PyVal.leaf (PyLeaf.strList pn.2))] }
      some { state with verification_passed := pn.1,
                        trace := state.trace ++ [trace_step] }
    | _, _ => none

end Jury

/-! ## Claim-side definitions -/

/-- The Verifier verdict exactly as the specification states it (§4.4):
`json` passes iff the text is valid strict JSON, `diff` passes iff the text
contains both markers or begins with the token diff, `text` passes iff the
trimmed text is non-empty, and a missing result fails for every format. -/
def specVerdict (result : Option String) (fmt : Format) : Bool :=
  match result with
  | none => false
  | some r =>
    match fmt with
    | Format.json => jsonValid r
    | Format.diff => (strContains r "---" && strContains r "+++") || pyStartsWith r "diff"
    | Format.text => !(pyStrip r).isEmpty

/-- Capability rank of a Gemini tier: the flash tier is the least capable. -/
def geminiTier (model : String) : Nat :=
  if model == "gemini-2.5-flash" then 0 else 1

/-- The invariant of claim C1 at one state: a missing result forces a failed
verification. -/
def noneImpliesUnverified (s : GraphState) : Prop :=
  s.result = none → s.verification_passed = false

/-! ## Concrete fixtures used by witnesses and counterexamples -/

/-- A plain text-format classification. -/
def textSpec : TaskSpec :=
  { intent := Intent.general, format := Format.text, needs_citations := false,
    confidence := ratZero }

/-- A json-format classification. -/
def jsonSpec : TaskSpec :=
  { intent := Intent.general, format := Format.json, needs_citations := false,
    confidence := ratZero }

/-- A fresh solve-task state. -/
def st0 : GraphState := initialState "solve" "q" "best"

/-- A state entering `verify` with no result. -/
def stVerifyNone : GraphState := { st0 with task_spec := some textSpec }

/-- A summarize-task state whose input is far below the long-context
threshold. -/
def stSummarizeShort : GraphState :=
  { initialState "summarize" "" "best" with task_spec := some textSpec }

/-- A research-task state as `choose_model` leaves it. -/
def stResearch : GraphState :=
  { initialState "research" "q" "best" with
    task_spec := some textSpec, chosen_model := some "perplexity" }

/-- A code-task state with the scoreboard entry of its backend. -/
def stCode : GraphState :=
  { initialState "code" "q" "best" with
    task_spec := some textSpec,
    chosen_model := some "anthropic-claude-sonnet-4",
    scoreboard := [{ model := "Claude Sonnet 4", quality := ratZero,
                     latency_ms := 0, cost_tier := "high", notes := "✓ Code" }] }

/-- A json-format state entering `verify` with a result that is not JSON. -/
def stJsonBad : GraphState :=
  { st0 with task_spec := some jsonSpec, result := some "\x7bnot json" }

/-- A classifier environment whose router call succeeds but whose content
does not parse as a `TaskSpec`. -/
def envParseFail : Agent.ClassifyEnv :=
  { routerCall := Except.ok { content := "garbage", latency_ms := 7 },
    parseTaskSpec := fun _ => none }

/-- An executor environment with no search key whose chat oracle echoes the
model identifier it was called with, making the executing backend observable
in the result. -/
def envEcho : Agent.ExecEnv :=
  { perplexityKey := false, search := Except.error "x",
    call := fun m _ => Except.ok { content := m, latency_ms := 1 },
    gemini := fun _ _ => Except.error "g" }

/-- An executor environment whose primary call fails and whose substitute
call to the reliable fallback backend succeeds. -/
def envPrimaryFail : Agent.ExecEnv :=
  { perplexityKey := false, search := Except.error "s",
    call := fun m _ =>
      if m == Agent.FALLBACK_MODEL then Except.ok { content := "x", latency_ms := 42 }
      else Except.error "boom",
    gemini := fun _ _ => Except.error "g" }

/-- A fallback environment whose call fails. -/
def envFallbackFail : Agent.FallbackEnv :=
  { call := fun _ _ => Except.error "fallback down" }

/-- A pipeline environment in which every external call fails. -/
def envAllFail : Agent.PipelineEnv :=
  { classifyEnv := { routerCall := Except.error "router down",
                     parseTaskSpec := fun _ => none },
    chooseEnv := { geminiAvailable := false },
    execEnv := { perplexityKey := false, search := Except.error "no key",
                 call := fun _ _ => Except.error "do down",
                 gemini := fun _ _ => Except.error "gemini down" },
    fallbackEnv := envFallbackFail }

/-! ## Claims -/

/-- C10 (confirmed): for every state — hence for every result value including
`None` and the empty string, and every classification — the `verify` node of
the jury flow returns exactly the same updated state (same verdict, same
notes) as the `verify` node of the agent flow: the two Verifier stages are
extensionally equal. -/
theorem C10_verifier_equivalence : ∀ s : GraphState, Jury.verify s = Agent.verify s :=
  fun _ => rfl

/-- C2 counterexample: on a state whose result is `None`, `verify` returns
early and appends no trace record at all — the output trace has the length
of the input trace, not length plus one as the claim demands. -/
theorem C2_counterexample :
    (Agent.verify stVerifyNone).map (fun s => s.trace.length) =
      some stVerifyNone.trace.length ∧
    ¬ (Agent.verify stVerifyNone).map (fun s => s.trace.length) =
      some (stVerifyNone.trace.length + 1) := by
  constructor
  · decide
  · decide

/-- C2 (amended): `classify_task`, `choose_model`, `execute` and `fallback`
append exactly one trace record on every invocation; `verify` appends exactly
one trace record when the result is present and non-empty, but appends none
(leaving the trace unchanged) when the result is `None` or the empty
string. -/
theorem C2_trace_growth :
    (∀ (env : Agent.ClassifyEnv) (s : GraphState),
      (Agent.classify_task env s).trace.length = s.trace.length + 1) ∧
    (∀ (env : Agent.ChooseEnv) (s s' : GraphState),
      Agent.choose_model env s = some s' → s'.trace.length = s.trace.length + 1) ∧
    (∀ (env : Agent.ExecEnv) (s s' : GraphState),
      Agent.execute env s = some s' → s'.trace.length = s.trace.length + 1) ∧
    (∀ s s' : GraphState, Agent.verify s = some s' →
      (isFalsy s.result = true → s'.trace = s.trace) ∧
      (isFalsy s.result = false → s'.trace.length = s.trace.length + 1)) ∧
    (∀ (env : Agent.FallbackEnv) (s s' : GraphState),
      Agent.fallback env s = some s' → s'.trace.length = s.trace.length + 1) := by
  refine ⟨fun env s => ?_, fun env s s' h => ?_, fun env s s' h => ?_,
    fun s s' h => ?_, fun env s s' h => ?_⟩
  · unfold Agent.classify_task
    cases h : env.routerCall <;> simp
  · unfold Agent.choose_model at h
    split at h
    · simp at h
    · injection h with h
      subst h
      simp
  · unfold Agent.execute at h
    split at h
    · dsimp only at h
      split at h <;> (try split at h) <;>
        (injection h with h; subst h; simp)
    · simp at h
  · unfold Agent.verify at h
    split at h
    · injection h with h
      subst h
      rename_i hfal
      exact ⟨fun _ => rfl, fun hcon => absurd hfal (by simp [hcon])⟩
    · rename_i hfal
      split at h
      · injection h with h
        subst h
        refine ⟨fun hcon => absurd hcon (by simp [hfal]), fun _ => by simp⟩
      · simp at h
  · unfold Agent.fallback at h
    split at h
    · simp at h
    · dsimp only at h
      split at h <;> (injection h with h; subst h; simp)

/-- C2 witness: on a concrete summarize state, `choose_model` grows the trace
by exactly one record. -/
theorem C2_trace_growth_witness :
    (Agent.choose_model { geminiAvailable := true } stSummarizeShort).map
      (fun s => s.trace.length) = some (stSummarizeShort.trace.length + 1) := by
  have hsome : Agent.choose_model { geminiAvailable := true } stSummarizeShort =
      some ((Agent.choose_model { geminiAvailable := true } stSummarizeShort).getD st0) := rfl
  have h := C2_trace_growth.2.1 { geminiAvailable := true } stSummarizeShort _ hsome
  rw [hsome]
  simpa using h

/-- C3 counterexample: for a summarize task whose input length is far below
the long-context threshold, `choose_model` with the Gemini provider
configured still selects Gemini (flash tier), not the reliable fallback
backend the claim demands for inputs at or below the threshold. -/
theorem C3_counterexample :
    (Agent.choose_model { geminiAvailable := true } stSummarizeShort).map
      (fun s => s.chosen_model) = some (some "gemini:gemini-2.5-flash") ∧
    stSummarizeShort.input.length ≤ Agent.LONG_CONTEXT_THRESHOLD ∧
    "gemini:gemini-2.5-flash" ≠ Agent.FALLBACK_MODEL := by
  refine ⟨by decide, by decide, by decide⟩

/-- C3 (amended): for a summarize task, `choose_model` selects the Gemini
provider iff the provider is configured, regardless of input length — the
long-context threshold is never consulted; the tier chosen by
`get_appropriate_gemini_model` is monotone in input length (flash for short
inputs, pro for longer ones); when Gemini is not configured the designated
reliable fallback backend is selected. -/
theorem C3_summarize_routing :
    (∀ (env : Agent.ChooseEnv) (s : GraphState) (spec : TaskSpec),
      s.task_spec = some spec → s.task = "summarize" →
      ∃ s', Agent.choose_model env s = some s' ∧
        s'.chosen_model = some (if env.geminiAvailable then
          "gemini:" ++ get_appropriate_gemini_model s.input.length
        else Agent.FALLBACK_MODEL)) ∧
    (∀ n m : Nat, n ≤ m →
      geminiTier (get_appropriate_gemini_model n) ≤
        geminiTier (get_appropriate_gemini_model m)) := by
  constructor
  · intro env s spec hspec htask
    unfold Agent.choose_model
    rw [hspec]
    dsimp only
    refine ⟨_, rfl, ?_⟩
    rw [htask]
    cases hg : env.geminiAvailable <;> simp [hg]
  · intro n m hnm
    have hdiv : n / 4 ≤ m / 4 := Nat.div_le_div_right hnm
    unfold get_appropriate_gemini_model geminiTier
    by_cases h1 : n / 4 > 100000 <;> by_cases h2 : n / 4 > 10000 <;>
      by_cases h3 : m / 4 > 100000 <;> by_cases h4 : m / 4 > 10000 <;>
      simp [h1, h2, h3, h4] <;> first | decide | omega

/-- C3 witness: applying the amended routing rule at a concrete short
summarize input with Gemini configured yields the flash-tier Gemini model. -/
theorem C3_summarize_routing_witness :
    (Agent.choose_model { geminiAvailable := true } stSummarizeShort).map
      (fun s => s.chosen_model) =
      some (some ("gemini:" ++ get_appropriate_gemini_model stSummarizeShort.input.length)) := by
  obtain ⟨s', hs', hmodel⟩ :=
    C3_summarize_routing.1 { geminiAvailable := true } stSummarizeShort textSpec rfl rfl
  rw [hs']
  simp only [Option.map_some']
  rw [hmodel]
  rfl

/-- C4 counterexample: when the router call succeeds but its content fails to
parse as a classification, `classify_task` substitutes the default
classification with confidence 0.5, but the appended trace payload is that
default classification dict and contains no error key — the error is not
recorded in the trace payload as the claim states. -/
theorem C4_counterexample :
    ((Agent.classify_task envParseFail st0).trace.map
      (fun t => dataHasKey t.data "error")) = [false] ∧
    (Agent.classify_task envParseFail st0).task_spec =
      some { intent := Intent.general, format := Format.text,
             needs_citations := false, confidence := ratHalf } := by
  refine ⟨by decide, by decide⟩

/-- C4 (amended): `classify_task` never propagates a failure. When the router
call fails it returns the default classification with confidence 0.3 and the
trace payload records the error together with the substituted default; when
the call succeeds but parsing or schema validation of its content fails it
returns the default classification with confidence 0.5, and the trace payload
is that default classification dict — the error is not recorded there. -/
theorem C4_classifier_defaults :
    (∀ (env : Agent.ClassifyEnv) (s : GraphState) (e : String),
      env.routerCall = Except.error e →
      (Agent.classify_task env s).task_spec =
        some { intent := Intent.general, format := Format.text,
               needs_citations := false, confidence := ratPointThree } ∧
      (Agent.classify_task env s).trace = s.trace ++
        [{ step := "classify_task", model := some Agent.ROUTER_MODEL, latency_ms := 0,
           data := [("error", PyVal.leaf (PyLeaf.s e)),
                    ("fallback", PyVal.dict (Agent.taskSpecDict
                      { intent := Intent.general, format := Format.text,
                        needs_citations := false, confidence := ratPointThree }))] }]) ∧
    (∀ (env : Agent.ClassifyEnv) (s : GraphState) (r : ModelCallResult),
      env.routerCall = Except.ok r →
      env.parseTaskSpec (pyStripStr r.content) = none →
      (Agent.classify_task env s).task_spec =
        some { intent := Intent.general, format := Format.text,
               needs_citations := false, confidence := ratHalf } ∧
      (Agent.classify_task env s).trace = s.trace ++
        [{ step := "classify_task", model := some Agent.ROUTER_MODEL,
           latency_ms := r.latency_ms,
           data := Agent.taskSpecData
             { intent := Intent.general, format := Format.text,
               needs_citations := false, confidence := ratHalf } }] ∧
      dataHasKey (Agent.taskSpecData
        { intent := Intent.general, format := Format.text,
          needs_citations := false, confidence := ratHalf }) "error" = false) := by
  constructor
  · intro env s e h
    unfold Agent.classify_task
    rw [h]
    exact ⟨rfl, rfl⟩
  · intro env s r hok hparse
    unfold Agent.classify_task
    rw [hok]
    dsimp only
    rw [hparse]
    exact ⟨rfl, rfl, by decide⟩

/-- C4 witness: on the concrete parse-failure environment, the classifier
falls back to the confidence-0.5 default. -/
theorem C4_classifier_defaults_witness :
    (Agent.classify_task envParseFail st0).task_spec =
      some { intent := Intent.general, format := Format.text,
             needs_citations := false, confidence := ratHalf } :=
  (C4_classifier_defaults.2 envParseFail st0
    { content := "garbage", latency_ms := 7 } rfl rfl).1

/-- C6 (confirmed): the conditional edge routes to `fallback` iff
`verification_passed` is false and `fallback_attempted` is false; whenever
`fallback` runs it sets `fallback_attempted` and `verification_passed` to
true in both its success and its failure branch — so the edge can never
select it again — and when its backend call fails the result field is left
exactly as it was. -/
theorem C6_fallback_guard :
    (∀ s : GraphState, Agent.should_fallback s = "fallback" ↔
      (s.verification_passed = false ∧ s.fallback_attempted = false)) ∧
    (∀ (env : Agent.FallbackEnv) (s s' : GraphState),
      Agent.fallback env s = some s' →
        s'.fallback_attempted = true ∧ s'.verification_passed = true ∧
        Agent.should_fallback s' = Agent.ENDNODE) ∧
    (∀ (env : Agent.FallbackEnv) (s : GraphState) (spec : TaskSpec)
        (s' : GraphState) (e : String),
      s.task_spec = some spec →
      env.call Agent.FALLBACK_MODEL (Agent.fallbackMessages s.task s.input spec) =
        Except.error e →
      Agent.fallback env s = some s' → s'.result = s.result) := by
  refine ⟨fun s => ?_, fun env s s' h => ?_, fun env s spec s' e hspec hcall h => ?_⟩
  · unfold Agent.should_fallback
    cases hv : s.verification_passed <;> cases hf : s.fallback_attempted <;>
      simp [Agent.ENDNODE]
  · unfold Agent.fallback at h
    split at h
    · simp at h
    · dsimp only at h
      split at h <;>
        (injection h with h; subst h;
         exact ⟨rfl, rfl, by unfold Agent.should_fallback; simp⟩)
  · unfold Agent.fallback at h
    rw [hspec] at h
    dsimp only at h
    rw [hcall] at h
    injection h with h
    subst h
    rfl

/-- C6 witness: on a concrete state with a failed verification and a failing
fallback call, the stage sets both flags and leaves the missing result in
place. -/
theorem C6_fallback_guard_witness :
    Agent.should_fallback stVerifyNone = "fallback" ∧
    (Agent.fallback envFallbackFail stVerifyNone).map
      (fun s => (s.fallback_attempted, s.verification_passed, s.result)) =
      some (true, true, stVerifyNone.result) := by
  have hsome : Agent.fallback envFallbackFail stVerifyNone =
      some ((Agent.fallback envFallbackFail stVerifyNone).getD st0) := rfl
  have hflags := C6_fallback_guard.2.1 envFallbackFail stVerifyNone _ hsome
  have hres := C6_fallback_guard.2.2 envFallbackFail stVerifyNone textSpec _
    "fallback down" rfl rfl hsome
  refine ⟨by decide, ?_⟩
  rw [hsome]
  simp only [Option.map_some']
  rw [hflags.1, hflags.2.1, hres]

/-- C8 (confirmed): whenever `verify` runs on a state carrying a
classification, its verdict is exactly the one the specification prescribes —
`json` passes iff the result parses as strict JSON, `diff` passes iff the
result contains both markers or starts with the token diff, `text` passes iff
the trimmed result is non-empty, and a missing result fails for every
format — and a non-empty json-format result that fails to parse produces the
invalid-JSON note in the appended trace record. -/
theorem C8_verify_verdict :
    ∀ (s : GraphState) (spec : TaskSpec) (s' : GraphState),
      s.task_spec = some spec → Agent.verify s = some s' →
      s'.verification_passed = specVerdict s.result spec.format ∧
      (∀ r, s.result = some r → r ≠ "" → spec.format = Format.json →
        jsonValid r = false →
        s'.trace = s.trace ++
          [{ step := "verify", model := none, latency_ms := 0,
             data := [("passed", PyVal.leaf (PyLeaf.b false)),
                      ("notes", PyVal.leaf (PyLeaf.strList ["Invalid JSON"]))] }]) := by
  intro s spec s' hspec h
  unfold Agent.verify at h
  split at h
  · rename_i hfal
    injection h with h
    subst h
    constructor
    · cases hr : s.result with
      | none => simp [specVerdict]
      | some r =>
        rw [hr] at hfal
        have hre : r = "" := by simpa [isFalsy] using hfal
        subst hre
        cases spec.format <;> simp [specVerdict] <;> decide
    · intro r hr hne _ _
      rw [hr] at hfal
      exact absurd (by simpa [isFalsy] using hfal) hne
  · rename_i hfal
    split at h
    · rename_i r ts heqr heqt
      injection h with h
      subst h
      rw [hspec] at heqt
      injection heqt with heqt
      subst heqt
      constructor
      · rw [heqr]
        cases hft : spec.format
        · dsimp only
          cases hl : pyStrip r with
          | nil => simp [specVerdict, hl]
          | cons a l => simp [specVerdict, hl]
        · dsimp only
          by_cases hpp : strContains r "+++" <;>
            by_cases hmm : strContains r "---" <;>
            by_cases hd : pyStartsWith r "diff" <;>
            simp [specVerdict, hpp, hmm, hd]
        · dsimp only
          cases hj : jsonValid r <;> simp [specVerdict, hj]
      · intro r' hr' _ hfmt hjson
        rw [heqr] at hr'
        injection hr' with hr'
        subst hr'
        rw [hfmt] at *
        dsimp only
        simp [hjson]
    · simp at h

/-- C8 witness: on a json-format state whose result is the non-JSON text of
the specification's own example, the verdict is false (the spec-side verdict
at that input) and the trace gains the invalid-JSON note. -/
theorem C8_verify_verdict_witness :
    (Agent.verify stJsonBad).map (fun s => s.verification_passed) =
      some (specVerdict stJsonBad.result Format.json) ∧
    specVerdict stJsonBad.result Format.json = false ∧
    (Agent.verify stJsonBad).map (fun s => s.trace) =
      some (stJsonBad.trace ++
        [{ step := "verify", model := none, latency_ms := 0,
           data := [("passed", PyVal.leaf (PyLeaf.b false)),
                    ("notes", PyVal.leaf (PyLeaf.strList ["Invalid JSON"]))] }]) := by
  have hsome : Agent.verify stJsonBad =
      some ((Agent.verify stJsonBad).getD st0) := rfl
  have h := C8_verify_verdict stJsonBad jsonSpec _ rfl hsome
  refine ⟨?_, by decide, ?_⟩
  · rw [hsome]
    simp only [Option.map_some']
    rw [h.1]
    rfl
  · rw [hsome]
    simp only [Option.map_some']
    rw [h.2 "\x7bnot json" rfl (by decide) rfl (by decide)]

/-- C5 counterexample: for a research task with no search key configured,
`execute` does not keep the originally chosen backend (perplexity) — using a
chat oracle that echoes the model identifier it receives, the produced result
shows the call went to the reliable fallback backend instead. -/
theorem C5_counterexample :
    stResearch.chosen_model = some "perplexity" ∧
    (Agent.execute envEcho stResearch).map (fun s => s.result) =
      some (some Agent.FALLBACK_MODEL) ∧
    Agent.FALLBACK_MODEL ≠ "perplexity" := by
  refine ⟨by decide, by decide, by decide⟩

/-- C5 (amended): in `execute`, for a research task or a chosen backend equal
to perplexity: with a configured key and a successful search the model is
rerouted to the reasoning-specialized backend for synthesis; when the search
call fails, or when no key is configured, the backend is replaced by the
designated reliable fallback backend (the originally chosen backend is not
kept); and in all cases `execute` returns a state rather than aborting. -/
theorem C5_search_reroute :
    (∀ (env : Agent.ExecEnv) (task model0 : String) (sd : SearchData),
      (task == "research" || model0 == "perplexity") = true →
      env.perplexityKey = true → env.search = Except.ok sd →
      (Agent.execSearchPhase env task model0).model = "deepseek-r1-distill-llama-70b") ∧
    (∀ (env : Agent.ExecEnv) (task model0 err : String),
      (task == "research" || model0 == "perplexity") = true →
      env.perplexityKey = true → env.search = Except.error err →
      (Agent.execSearchPhase env task model0).model = Agent.FALLBACK_MODEL) ∧
    (∀ (env : Agent.ExecEnv) (task model0 : String),
      (task == "research" || model0 == "perplexity") = true →
      env.perplexityKey = false →
      (Agent.execSearchPhase env task model0).model = Agent.FALLBACK_MODEL) ∧
    (∀ (env : Agent.ExecEnv) (s : GraphState) (spec : TaskSpec) (m0 : String),
      s.task_spec = some spec → s.chosen_model = some m0 →
      ∃ s', Agent.execute env s = some s') := by
  refine ⟨fun env task model0 sd hre hkey hs => ?_,
    fun env task model0 err hre hkey hs => ?_,
    fun env task model0 hre hkey => ?_,
    fun env s spec m0 hspec hm => ?_⟩
  · unfold Agent.execSearchPhase
    rw [hre, hkey, hs]
    rfl
  · unfold Agent.execSearchPhase
    rw [hre, hkey, hs]
    rfl
  · unfold Agent.execSearchPhase
    rw [hre, hkey]
    rfl
  · unfold Agent.execute
    rw [hspec, hm]
    dsimp only
    rcases hd : Agent.execDispatch env (Agent.execSearchPhase env s.task m0).model
        (Agent.execMessages env s.task s.input m0 spec) with e | r
    · rcases hc : env.call Agent.FALLBACK_MODEL
          (Agent.execMessages env s.task s.input m0 spec) with e2 | r2
      · exact ⟨_, rfl⟩
      · exact ⟨_, rfl⟩
    · exact ⟨_, rfl⟩

/-- C5 witness: at the concrete no-key research environment, the search phase
substitutes the reliable fallback backend. -/
theorem C5_search_reroute_witness :
    (Agent.execSearchPhase envEcho "research" "perplexity").model =
      Agent.FALLBACK_MODEL :=
  C5_search_reroute.2.2.1 envEcho "research" "perplexity" (by decide) rfl

/-- The scoreboard annotation of `execute` never changes the backend name of
an entry. -/
lemma annotate_model (task : String) (lat : Nat) (e : ScoreboardEntry) :
    (Agent.annotate task lat e).model = e.model := by
  unfold Agent.annotate
  repeat' split
  all_goals rfl

/-- C9 counterexample: when the primary call fails and the substitute call to
the reliable fallback backend succeeds with an observed latency of 42ms, the
returned state is a success (`result` is populated) yet the scoreboard is
left completely untouched — no entry receives the observed latency, contrary
to the claim that every success path updates the matching entry. -/
theorem C9_counterexample :
    (Agent.execute envPrimaryFail stCode).map (fun s => s.result) =
      some (some "x") ∧
    (Agent.execute envPrimaryFail stCode).map (fun s => s.scoreboard) =
      some stCode.scoreboard ∧
    (Agent.execute envPrimaryFail stCode).map
      (fun s => s.scoreboard.any (fun e => e.latency_ms == 42)) = some false := by
  refine ⟨by decide, by decide, by decide⟩

/-- C9 (amended): on the primary success path of `execute` the scoreboard is
rewritten entry-by-entry with the annotation keyed on the task type (latency
and a fixed 0.9 quality placeholder), not on the executing backend; on the
substitute-success path the scoreboard is left unchanged; and no stage ever
removes or renames a scoreboard entry — `execute` and `fallback` preserve the
list of backend names, while `classify_task` and `verify` leave the
scoreboard untouched. -/
theorem C9_scoreboard_updates :
    (∀ (env : Agent.ExecEnv) (s : GraphState) (spec : TaskSpec) (m0 : String)
        (r : ModelCallResult),
      s.task_spec = some spec → s.chosen_model = some m0 →
      Agent.execDispatch env (Agent.execSearchPhase env s.task m0).model
        (Agent.execMessages env s.task s.input m0 spec) = Except.ok r →
      ∃ s', Agent.execute env s = some s' ∧
        s'.scoreboard = s.scoreboard.map (Agent.annotate s.task r.latency_ms)) ∧
    (∀ (env : Agent.ExecEnv) (s : GraphState) (spec : TaskSpec) (m0 e : String)
        (r : ModelCallResult),
      s.task_spec = some spec → s.chosen_model = some m0 →
      Agent.execDispatch env (Agent.execSearchPhase env s.task m0).model
        (Agent.execMessages env s.task s.input m0 spec) = Except.error e →
      env.call Agent.FALLBACK_MODEL (Agent.execMessages env s.task s.input m0 spec) =
        Except.ok r →
      ∃ s', Agent.execute env s = some s' ∧ s'.scoreboard = s.scoreboard) ∧
    (∀ (env : Agent.ExecEnv) (s s' : GraphState), Agent.execute env s = some s' →
      s'.scoreboard.map (fun e => e.model) = s.scoreboard.map (fun e => e.model)) ∧
    (∀ (env : Agent.FallbackEnv) (s s' : GraphState), Agent.fallback env s = some s' →
      s'.scoreboard.map (fun e => e.model) = s.scoreboard.map (fun e => e.model)) ∧
    (∀ (env : Agent.ClassifyEnv) (s : GraphState),
      (Agent.classify_task env s).scoreboard = s.scoreboard) ∧
    (∀ s s' : GraphState, Agent.verify s = some s' → s'.scoreboard = s.scoreboard) := by
  refine ⟨fun env s spec m0 r hspec hm hok => ?_,
    fun env s spec m0 e r hspec hm herr hsub => ?_,
    fun env s s' h => ?_, fun env s s' h => ?_, fun env s => ?_, fun s s' h => ?_⟩
  · unfold Agent.execute
    rw [hspec, hm]
    dsimp only
    rw [hok]
    exact ⟨_, rfl, rfl⟩
  · unfold Agent.execute
    rw [hspec, hm]
    dsimp only
    rw [herr, hsub]
    exact ⟨_, rfl, rfl⟩
  · unfold Agent.execute at h
    split at h
    · dsimp only at h
      split at h
      · injection h with h
        subst h
        dsimp only
        rw [List.map_map]
        exact List.map_congr_left (fun a _ => annotate_model _ _ a)
      · split at h <;> (injection h with h; subst h; rfl)
    · simp at h
  · unfold Agent.fallback at h
    split at h
    · simp at h
    · dsimp only at h
      split at h <;> (injection h with h; subst h)
      · dsimp only
        rw [List.map_map]
        refine List.map_congr_left (fun a _ => ?_)
        dsimp only [Function.comp]
        split <;> rfl
      · rfl
  · unfold Agent.classify_task
    cases h : env.routerCall <;> rfl
  · unfold Agent.verify at h
    split at h
    · injection h with h
      subst h
      rfl
    · split at h
      · injection h with h
        subst h
        rfl
      · simp at h

/-- C9 witness: on the concrete primary-failure environment, the
substitute-success path leaves the scoreboard exactly as it was. -/
theorem C9_scoreboard_updates_witness :
    (Agent.execute envPrimaryFail stCode).map (fun s => s.scoreboard) =
      some stCode.scoreboard := by
  obtain ⟨s', hs', hsb⟩ := C9_scoreboard_updates.2.1 envPrimaryFail stCode textSpec
    "anthropic-claude-sonnet-4" "boom" { content := "x", latency_ms := 42 }
    rfl rfl rfl rfl
  rw [hs']
  simp only [Option.map_some']
  rw [hsb]

/-- C7 (confirmed): whenever the primary dispatch of `execute` fails, the
stage makes one substitute call to the fixed reliable fallback backend with
the very same composed messages; if that call succeeds the result is
populated with its content (so `verify` never sees a missing result), and if
it also fails the result is set to `None` and the single appended trace
record carries both errors — in every case `execute` returns a state instead
of raising. -/
theorem C7_executor_substitution :
    ∀ (env : Agent.ExecEnv) (s : GraphState) (spec : TaskSpec) (m0 e : String),
      s.task_spec = some spec → s.chosen_model = some m0 →
      Agent.execDispatch env (Agent.execSearchPhase env s.task m0).model
        (Agent.execMessages env s.task s.input m0 spec) = Except.error e →
      ∃ s', Agent.execute env s = some s' ∧
        (∀ r : ModelCallResult,
          env.call Agent.FALLBACK_MODEL (Agent.execMessages env s.task s.input m0 spec) =
            Except.ok r →
          s'.result = some r.content ∧
          s'.trace = s.trace ++
            [{ step := "execute",
               model := some ((Agent.execSearchPhase env s.task m0).model ++
                 " → Llama 3.3 (fallback)"),
               latency_ms := r.latency_ms,
               data := [("original_error", PyVal.leaf (PyLeaf.s e)),
                        ("used_fallback", PyVal.leaf (PyLeaf.b true))] }]) ∧
        (∀ e2 : String,
          env.call Agent.FALLBACK_MODEL (Agent.execMessages env s.task s.input m0 spec) =
            Except.error e2 →
          s'.result = none ∧
          s'.trace = s.trace ++
            [{ step := "execute",
               model := some (Agent.execSearchPhase env s.task m0).model,
               latency_ms := 0,
               data := [("error", PyVal.leaf (PyLeaf.s e)),
                        ("fallback_error", PyVal.leaf (PyLeaf.s e2))] }]) := by
  intro env s spec m0 e hspec hm herr
  unfold Agent.execute
  rw [hspec, hm]
  dsimp only
  rw [herr]
  rcases hc : env.call Agent.FALLBACK_MODEL
      (Agent.execMessages env s.task s.input m0 spec) with e2 | r
  · refine ⟨_, rfl, fun r hok => absurd hok (by simp), fun e2' herr2 => ?_⟩
    injection herr2 with herr2
    subst herr2
    exact ⟨rfl, rfl⟩
  · refine ⟨_, rfl, fun r' hok => ?_, fun e2' herr2 => absurd herr2 (by simp)⟩
    injection hok with hok
    subst hok
    exact ⟨rfl, rfl⟩

/-- C7 witness: on the concrete primary-failure environment whose substitute
call succeeds, the result is populated with the substitute content. -/
theorem C7_executor_substitution_witness :
    (Agent.execute envPrimaryFail stCode).map (fun s => s.result) =
      some (some "x") := by
  obtain ⟨s', hs', hok, _⟩ := C7_executor_substitution envPrimaryFail stCode textSpec
    "anthropic-claude-sonnet-4" "boom" rfl rfl rfl
  rw [hs']
  simp only [Option.map_some']
  rw [(hok { content := "x", latency_ms := 42 } rfl).1]

/-- C1 counterexample: running the whole pipeline in an environment where
every external call fails terminates in a final state with `result = None`
and `verification_passed = true`: the fallback stage's failure branch forces
the verified flag while leaving the result missing, so the claimed implication
does not hold at the final stage boundary. -/
theorem C1_counterexample :
    (Agent.run_jury_workflow envAllFail "solve" "q" "best").map
      (fun s => (s.result, s.verification_passed)) = some (none, true) := by
  decide

/-- C1 (amended): the implication that a missing result forces a failed
verification is preserved by `classify_task` and `choose_model` on every
state, holds after `execute` on any state whose verification flag is still
unset, and holds after `verify` unconditionally; `fallback` can only output a
missing result when the result was already missing on entry, but its failure
branch forces `verification_passed = true`, so the implication can be broken
exactly there — at the final boundary after a failed fallback call with no
prior result. -/
theorem C1_none_unverified :
    (∀ (env : Agent.ClassifyEnv) (s : GraphState),
      noneImpliesUnverified s → noneImpliesUnverified (Agent.classify_task env s)) ∧
    (∀ (env : Agent.ChooseEnv) (s s' : GraphState),
      Agent.choose_model env s = some s' →
      noneImpliesUnverified s → noneImpliesUnverified s') ∧
    (∀ (env : Agent.ExecEnv) (s s' : GraphState),
      Agent.execute env s = some s' →
      s.verification_passed = false → noneImpliesUnverified s') ∧
    (∀ s s' : GraphState, Agent.verify s = some s' → noneImpliesUnverified s') ∧
    (∀ (env : Agent.FallbackEnv) (s s' : GraphState),
      Agent.fallback env s = some s' → s'.result = none → s.result = none) := by
  refine ⟨fun env s himpl => ?_, fun env s s' h himpl => ?_,
    fun env s s' h hvp => ?_, fun s s' h => ?_, fun env s s' h hres => ?_⟩
  · unfold noneImpliesUnverified Agent.classify_task
    cases env.routerCall <;> dsimp only <;> exact fun hres => himpl hres
  · unfold Agent.choose_model at h
    split at h
    · simp at h
    · injection h with h
      subst h
      exact fun hres => himpl hres
  · unfold Agent.execute at h
    split at h
    · dsimp only at h
      split at h
      · injection h with h
        subst h
        exact fun hres => absurd hres (by simp)
      · split at h <;> (injection h with h; subst h)
        · exact fun hres => absurd hres (by simp)
        · exact fun _ => hvp
    · simp at h
  · unfold Agent.verify at h
    split at h
    · injection h with h
      subst h
      exact fun _ => rfl
    · split at h
      · injection h with h
        subst h
        rename_i r ts heqr heqt
        exact fun hres => absurd hres (by simp [heqr])
      · simp at h
  · unfold Agent.fallback at h
    split at h
    · simp at h
    · dsimp only at h
      split at h <;> (injection h with h; subst h)
      · exact absurd hres (by simp)
      · exact hres

/-- C1 witness: applying the invariant after `verify` on a concrete state
with no result yields a failed verification. -/
theorem C1_none_unverified_witness :
    (Agent.verify stVerifyNone).map (fun s => s.verification_passed) =
      some false := by
  have hsome : Agent.verify stVerifyNone =
      some ((Agent.verify stVerifyNone).getD st0) := rfl
  have h := C1_none_unverified.2.2.2.1 stVerifyNone _ hsome
  have hres : ((Agent.verify stVerifyNone).getD st0).result = none := by decide
  rw [hsome]
  simp only [Option.map_some']
  rw [h hres]

end Pentamind
